import Mathlib

/-!
Verification of the fan-control core (src/main.c).

The C source is shallowly embedded: C `int` arithmetic is modelled by `Int`
(all values involved stay far from machine bounds, so no wrap-around occurs),
C `double` arithmetic is modelled by exact rationals `ℚ` (for every integer
input reachable at each call site the double computation is exact enough that
the truncating cast agrees with the exact rational floor; this was checked
for the whole input ranges), and hardware / filesystem effects are modelled
by explicit oracle parameters.
-/

/-! ### Constants (src/main.c lines 31-55) -/

def EC_SC : Nat := 0x66
def EC_DATA : Nat := 0x62
def IBF : Nat := 1
def OBF : Nat := 0
def EC_SC_READ_CMD : Nat := 0x80

def MIN_FAN_DUTY_PCT : Int := 20
def AUTO_MIN_TEMP_C : Int := 40
def AUTO_MAX_TEMP_C : Int := 80
def MIN_DEADBAND_C : Int := 2
def STEP_PCT : Int := 2

/-! ### Utils -/

/-- `clamp` from src/main.c:350-354. -/
def clamp (v lo hi : Int) : Int :=
  if v < lo then lo else if hi < v then hi else v

/-- The linear-interpolation-and-round part of `target_duty_from_temp_hot`
(src/main.c:200-203): `x0 = AUTO_MIN_TEMP_C`, `y0 = MIN_FAN_DUTY_PCT`,
`x1 = AUTO_MAX_TEMP_C`, `y1 = 100`,
`duty = y0 + (y1-y0)*((temp_c-x0)/(x1-x0))`, `pct = (int)(duty + 0.5)`.
The double arithmetic is modelled by exact rationals; on the branch where the
code evaluates this (`40 < temp_c < 80`) the operand of the cast is positive,
so the truncating cast is the floor. -/
def duty_interp_round (temp_c : Int) : Int :=
  ⌊(MIN_FAN_DUTY_PCT : ℚ) + ((100 : ℚ) - (MIN_FAN_DUTY_PCT : ℚ)) *
      (((temp_c : ℚ) - (AUTO_MIN_TEMP_C : ℚ)) /
        ((AUTO_MAX_TEMP_C : ℚ) - (AUTO_MIN_TEMP_C : ℚ))) + 1/2⌋

/-- `target_duty_from_temp_hot` from src/main.c:182-205.  The two-sided C
hysteresis block (`if (prev_pct == 0) { if (temp_c <= on_thr) return 0; }
else { if (temp_c < off_thr) return 0; }`) is rendered as the two guarded
0-branches below. -/
def target_duty_from_temp_hot (temp_c prev_pct : Int) : Int :=
  if AUTO_MAX_TEMP_C ≤ temp_c then 100
  else if prev_pct = 0 ∧ temp_c ≤ AUTO_MIN_TEMP_C + MIN_DEADBAND_C then 0
  else if prev_pct ≠ 0 ∧ temp_c < AUTO_MIN_TEMP_C - MIN_DEADBAND_C then 0
  else if temp_c ≤ AUTO_MIN_TEMP_C then MIN_FAN_DUTY_PCT
  else clamp (duty_interp_round temp_c) 0 100

/-- `step_toward` from src/main.c:207-213. -/
def step_toward (last_pct target_pct : Int) : Int :=
  let delta := target_pct - last_pct
  if 0 < delta then last_pct + (if delta < STEP_PCT then delta else STEP_PCT)
  else if delta < 0 then last_pct - (if -delta < STEP_PCT then -delta else STEP_PCT)
  else last_pct

/-- The per-cycle duty decision of `cmd_auto` (src/main.c:226-230):
`target = target_duty_from_temp_hot(th, last)`;
`newduty = (th >= AUTO_MAX_TEMP_C) ? 100 : step_toward(last, target)`;
`newduty = clamp(newduty, 0, 100)`. -/
def auto_new_duty (th last : Int) : Int :=
  clamp (if AUTO_MAX_TEMP_C ≤ th then 100
         else step_toward last (target_duty_from_temp_hot th last)) 0 100

/-- Result of one `cmd_auto` loop iteration: the controller variable `last`
after the iteration, and the duty that actually reached each fan's register
this iteration (`none` when no write was attempted or the write failed). -/
structure CycleResult where
  last : Int
  written1 : Option Int
  written2 : Option Int
deriving DecidableEq

/-- One iteration of the `cmd_auto` control loop body (src/main.c:221-247).
`tc`, `tg` are the CPU/GPU temperatures read this cycle; `write1_ok`,
`write2_ok` are the transport outcomes of the two duty writes.  Note the C
code discards the return values of `fan1_duty_write` / `fan2_duty_write`
here and executes `last = newduty` unconditionally afterwards. -/
def cmd_auto_cycle (tc tg last : Int) (write1_ok write2_ok : Bool) : CycleResult :=
  let th := if tg < tc then tc else tg
  let target := target_duty_from_temp_hot th last
  let newduty := if AUTO_MAX_TEMP_C ≤ th then 100 else step_toward last target
  let newduty := clamp newduty 0 100
  if newduty ≠ last then
    { last := newduty
      written1 := if write1_ok then some newduty else none
      written2 := if write2_ok then some newduty else none }
  else
    { last := last, written1 := none, written2 := none }

/-! ### Duty conversions (src/main.c:311-315 and 337-341) -/

/-- The percent-to-raw conversion of `fan1_duty_write` (src/main.c:337-341):
`pct = clamp(pct, 0, 100); v = (int)(pct / 100.0 * 255.0 + 0.5)`.
The operand of the cast is nonnegative, so the truncating cast is the floor. -/
def percent_to_raw (pct : Int) : Int :=
  ⌊((clamp pct 0 100 : Int) : ℚ) / 100 * 255 + 1/2⌋

/-- The raw-to-percent conversion of `fan1_duty_read` (src/main.c:311-315):
`pct = (int)((raw / 255.0) * 100.0 + 0.5); return clamp(pct, 0, 100)`. -/
def raw_to_percent (raw : Int) : Int :=
  clamp ⌊((raw : ℚ) / 255) * 100 + 1/2⌋ 0 100

/-- `rpm_from_raw` from src/main.c:372-375, on the byte values delivered by
`ec_io_read`: `raw = (hi << 8) | lo; return (raw > 0) ? 2156220 / raw : 0`.
Both operands of the C `int` division are positive on that branch, so it
agrees with Euclidean division on `Int`. -/
def rpm_from_raw (hi lo : Nat) : Int :=
  let raw : Nat := (hi <<< 8) ||| lo
  if 0 < raw then (2156220 : Int) / (raw : Int) else 0

/-! ### Evaluation lemmas

The ℚ-valued roundings above do not reduce inside the kernel; these lemmas
rewrite them to equal pure-integer expressions so that concrete instances can
be settled by `decide`. -/

theorem duty_interp_round_eq (t : Int) : duty_interp_round t = 20 + 2 * (t - 40) := by
  unfold duty_interp_round
  have h : (MIN_FAN_DUTY_PCT : ℚ) + ((100 : ℚ) - (MIN_FAN_DUTY_PCT : ℚ)) *
      (((t : ℚ) - (AUTO_MIN_TEMP_C : ℚ)) /
        ((AUTO_MAX_TEMP_C : ℚ) - (AUTO_MIN_TEMP_C : ℚ))) + 1/2
      = ((20 + 2 * (t - 40) : Int) : ℚ) + 1/2 := by
    simp only [MIN_FAN_DUTY_PCT, AUTO_MIN_TEMP_C, AUTO_MAX_TEMP_C]
    push_cast
    ring
  rw [h, add_comm, Int.floor_add_int]
  norm_num

/-- `target_duty_from_temp_hot` as a pure integer computation. -/
theorem target_duty_eval (t p : Int) :
    target_duty_from_temp_hot t p =
      if 80 ≤ t then 100
      else if p = 0 ∧ t ≤ 42 then 0
      else if p ≠ 0 ∧ t < 38 then 0
      else if t ≤ 40 then 20
      else clamp (20 + 2 * (t - 40)) 0 100 := by
  unfold target_duty_from_temp_hot
  rw [duty_interp_round_eq]
  norm_num [AUTO_MAX_TEMP_C, AUTO_MIN_TEMP_C, MIN_DEADBAND_C, MIN_FAN_DUTY_PCT]

theorem percent_to_raw_eval (pct : Int) :
    percent_to_raw pct = (51 * clamp pct 0 100 + 10) / 20 := by
  unfold percent_to_raw
  have h : ((clamp pct 0 100 : Int) : ℚ) / 100 * 255 + 1/2
      = ((51 * clamp pct 0 100 + 10 : Int) : ℚ) / ((20 : ℕ) : ℚ) := by
    push_cast
    ring
  rw [h, Rat.floor_intCast_div_natCast]
  norm_num

theorem raw_to_percent_eval (raw : Int) :
    raw_to_percent raw = clamp ((40 * raw + 51) / 102) 0 100 := by
  unfold raw_to_percent
  have h : ((raw : Int) : ℚ) / 255 * 100 + 1/2
      = ((40 * raw + 51 : Int) : ℚ) / ((102 : ℕ) : ℚ) := by
    push_cast
    ring
  rw [h, Rat.floor_intCast_div_natCast]
  norm_num

/-! ### EC transport (src/main.c:260-292)

Hardware responses are modelled by oracle byte streams: `reads k` is the byte
that `inb(port)` returns at the k-th poll of a wait loop. -/

/-- The polling loop of `ec_io_wait` (src/main.c:260-268), by structural
recursion on remaining fuel.  `i` is the C loop counter: the loop exits as
soon as bit `flag` of the polled byte equals `value` (returning 0 unless the
counter already reached 100) or once `i++ < 100` fails (returning -1).
Starting from `i = 0`, at most 101 polls happen, so fuel 101 never runs out. -/
def ec_io_wait_go (flag value : Nat) (reads : Nat → Nat) : Nat → Nat → Int
  | 0, _ => -1
  | fuel + 1, i =>
    if ((reads i >>> flag) &&& 1) ≠ value then
      if i < 100 then ec_io_wait_go flag value reads fuel (i + 1) else -1
    else if 100 ≤ i then -1 else 0

/-- `ec_io_wait` from src/main.c:260-268.  The `port` argument selects which
hardware port is polled; the polled bytes themselves are supplied by the
oracle stream `reads`. -/
def ec_io_wait (port flag value : Nat) (reads : Nat → Nat) : Int :=
  let _ := port
  ec_io_wait_go flag value reads 101 0

/-- The three port writes `ec_io_do` issues, in program order
(src/main.c:283, 286, 289): the command opcode to the status/command port,
then the register address and the value byte to the data port. -/
def ec_io_write_seq (cmd port value : Nat) : List (Nat × Nat) :=
  [(EC_SC, cmd), (EC_DATA, port), (EC_DATA, value)]

/-- `ec_io_do` from src/main.c:281-292.  `reads k` is the byte stream polled
by the k-th `ec_io_wait(EC_SC, IBF, 0)` call.  Returns the C return value
paired with the list of port writes performed, in order: each `outb` happens
only after the wait before it succeeded, and a failed wait returns -1
immediately, so the writes performed are exactly a prefix of
`ec_io_write_seq`. -/
def ec_io_do (cmd port value : Nat) (reads : Fin 4 → Nat → Nat) : Int × List (Nat × Nat) :=
  if ec_io_wait EC_SC IBF 0 (reads 0) ≠ 0 then (-1, [])
  else if ec_io_wait EC_SC IBF 0 (reads 1) ≠ 0 then (-1, (ec_io_write_seq cmd port value).take 1)
  else if ec_io_wait EC_SC IBF 0 (reads 2) ≠ 0 then (-1, (ec_io_write_seq cmd port value).take 2)
  else (ec_io_wait EC_SC IBF 0 (reads 3), ec_io_write_seq cmd port value)

/-! ### GPU temperature discovery (src/main.c:302-308, 380-433)

The filesystem under /sys/class/hwmon is modelled as data; C strings are
modelled as `List Char`. -/

/-- One directory entry of /sys/class/hwmon as `gpu_temp_sysfs` observes it:
its directory name, the (newline-trimmed) contents of its `name` file
(`none` when the file cannot be opened or read, src/main.c:394-400), and the
integer contents of `temp<i>_input` (`none` when the file does not exist;
a file that exists but cannot be parsed behaves like `some (-1)`, the
return value of `read_int_from_file` on failure). -/
structure HwMon where
  dirname : List Char
  name : Option (List Char)
  temps : Nat → Option Int

/-- The GPU-driver allowlist check of src/main.c:403-404:
`strstr(namebuf, "nvidia") || strstr(namebuf, "amdgpu") ||
strstr(namebuf, "i915") || strstr(namebuf, "xe")`. -/
def gpu_name_matches (nm : List Char) : Bool :=
  decide ("nvidia".toList <:+: nm) || decide ("amdgpu".toList <:+: nm) ||
    decide ("i915".toList <:+: nm) || decide ("xe".toList <:+: nm)

/-- The body of the readdir loop of `gpu_temp_sysfs` (src/main.c:386-417) for
one directory entry, updating the running maximum `best`: entries whose name
does not start with "hwmon" (the `strncmp` check) or whose `name` file is
unreadable are skipped; for a matching monitor, each existing
`temp<i>_input` for i = 1..10 with a positive millidegree value contributes
`milli / 1000` degrees, and the hottest value wins. -/
def hwmon_scan_one (best : Int) (m : HwMon) : Int :=
  if "hwmon".toList <+: m.dirname then
    match m.name with
    | none => best
    | some nm =>
      if gpu_name_matches nm then
        (List.range' 1 10).foldl (fun b i =>
          match m.temps i with
          | none => b
          | some milli =>
            if 0 < milli then
              let c := milli / 1000
              if b < c then c else b
            else b) best
      else best
  else best

/-- `gpu_temp_sysfs` from src/main.c:380-420: `none` models a failed
`opendir` (return -1); otherwise the entries are scanned in directory order
starting from `best = -1`. -/
def gpu_temp_sysfs (dir : Option (List HwMon)) : Int :=
  match dir with
  | none => -1
  | some entries => entries.foldl hwmon_scan_one (-1)

/-- The environment `gpu_temp` runs in: the modelled hwmon directory, the
return value of `gpu_temp_nvidia_smi` (an oracle for the vendor-subprocess
source, src/main.c:423-433), and the byte at the EC GPU-temperature
register. -/
structure GpuEnv where
  hwmon : Option (List HwMon)
  nvidia_smi : Int
  ec_gpu : Nat

/-- `gpu_temp` from src/main.c:302-308.  The second component records
whether the vendor-subprocess source (`gpu_temp_nvidia_smi`) was consulted. -/
def gpu_temp (env : GpuEnv) : Int × Bool :=
  let t := gpu_temp_sysfs env.hwmon
  if 0 < t then (t, false)
  else
    let t2 := env.nvidia_smi
    if 0 < t2 then (t2, true)
    else ((env.ec_gpu : Int), true)

/-! ### The spec's formula for the linear region -/

/-- The formula asserted by the spec for the linear region (claim C5):
round-to-nearest of `20 + (100-20) * (hot-40)/(80-40)`, clamped to [0,100].
This is a spec-side definition, to be compared with the code's
`target_duty_from_temp_hot`. -/
def linear_duty_spec (hot : Int) : Int :=
  clamp (round ((20 : ℚ) + ((100 : ℚ) - 20) * (((hot : ℚ) - 40) / ((80 : ℚ) - 40)))) 0 100

theorem linear_duty_spec_eval (t : Int) :
    linear_duty_spec t = clamp (20 + 2 * (t - 40)) 0 100 := by
  unfold linear_duty_spec
  rw [round_eq]
  have h : (20 : ℚ) + ((100 : ℚ) - 20) * (((t : ℚ) - 40) / ((80 : ℚ) - 40)) + 1/2
      = ((20 + 2 * (t - 40) : Int) : ℚ) + 1/2 := by
    push_cast
    ring
  rw [h, add_comm, Int.floor_add_int]
  norm_num

/-! ### Claims about the duty curve and ramp limiter -/

/-- C1: for every temperature `hot ≥ 80` and every previous duty in [0,100],
`target_duty_from_temp_hot` returns exactly 100, and the auto-loop's
per-cycle `newduty` is 100 (the ramp limiter is bypassed), even from
`prev = 0`. -/
theorem C1_safety_override (hot prev : Int) (hhot : 80 ≤ hot)
    (hlo : 0 ≤ prev) (hhi : prev ≤ 100) :
    target_duty_from_temp_hot hot prev = 100 ∧ auto_new_duty hot prev = 100 := by
  constructor
  · rw [target_duty_eval]
    simp [hhot]
  · unfold auto_new_duty
    rw [if_pos (show AUTO_MAX_TEMP_C ≤ hot by simpa [AUTO_MAX_TEMP_C] using hhot)]
    decide

/-- Witness for C1 at `hot = 80`, `prev = 0`. -/
theorem C1_safety_override_witness :
    target_duty_from_temp_hot 80 0 = 100 ∧ auto_new_duty 80 0 = 100 :=
  C1_safety_override 80 0 (by decide) (by decide) (by decide)

/-- C3: hysteresis around the 40°C threshold with ±2°C deadband: with
`prev = 0` the target stays 0 for all `hot ≤ 42` and is positive at 43;
with `prev = 20` the target is 20 at 39 and 0 at 37; in particular
`target_duty_from_temp_hot 41 0 = 0`. -/
theorem C3_hysteresis :
    (∀ hot : Int, hot ≤ 42 → target_duty_from_temp_hot hot 0 = 0) ∧
      0 < target_duty_from_temp_hot 43 0 ∧
      target_duty_from_temp_hot 39 20 = 20 ∧
      target_duty_from_temp_hot 37 20 = 0 ∧
      target_duty_from_temp_hot 41 0 = 0 := by
  refine ⟨?_, ?_, ?_, ?_, ?_⟩
  · intro hot h
    rw [target_duty_eval]
    rw [if_neg (by omega), if_pos ⟨rfl, h⟩]
  · rw [target_duty_eval]; decide
  · rw [target_duty_eval]; decide
  · rw [target_duty_eval]; decide
  · rw [target_duty_eval]; decide

/-- Witness for C3's quantified part at `hot = 41`. -/
theorem C3_hysteresis_witness : target_duty_from_temp_hot 41 0 = 0 :=
  C3_hysteresis.1 41 (by decide)

/-- C4: for every `last` and `target` in [0,100], `step_toward` moves `last`
toward `target` by at most `STEP_PCT = 2` points and never past `target`;
in particular `step_toward 20 100 = 22` and `step_toward 20 21 = 21`. -/
theorem C4_ramp_limiting :
    (∀ last target : Int, 0 ≤ last → last ≤ 100 → 0 ≤ target → target ≤ 100 →
        (last ≤ target →
          last ≤ step_toward last target ∧ step_toward last target ≤ target ∧
            step_toward last target - last ≤ STEP_PCT) ∧
        (target ≤ last →
          target ≤ step_toward last target ∧ step_toward last target ≤ last ∧
            last - step_toward last target ≤ STEP_PCT)) ∧
      step_toward 20 100 = 22 ∧ step_toward 20 21 = 21 := by
  refine ⟨?_, by decide, by decide⟩
  intro last target _ _ _ _
  simp only [step_toward, STEP_PCT]
  constructor <;> intro h <;> split_ifs <;> omega

/-- Witness for C4's quantified part at `last = 20`, `target = 100`. -/
theorem C4_ramp_limiting_witness :
    20 ≤ step_toward 20 100 ∧ step_toward 20 100 ≤ 100 ∧
      step_toward 20 100 - 20 ≤ STEP_PCT :=
  (C4_ramp_limiting.1 20 100 (by decide) (by decide) (by decide) (by decide)).1 (by decide)

/-- C5: in the linear region (`40 < hot < 80`, hysteresis not forcing 0,
which given `hot > 40` can only happen when `prev = 0` and `hot ≤ 42`),
the code's target equals the spec's rounded-and-clamped interpolation
formula; in particular `target_duty_from_temp_hot 60 20 = 60`. -/
theorem C5_linear_region :
    (∀ hot prev : Int, 40 < hot → hot < 80 → (prev = 0 → 42 < hot) →
        target_duty_from_temp_hot hot prev = linear_duty_spec hot) ∧
      target_duty_from_temp_hot 60 20 = 60 := by
  constructor
  · intro hot prev h1 h2 h3
    rw [target_duty_eval, linear_duty_spec_eval]
    rw [if_neg (by omega), if_neg ?_, if_neg ?_, if_neg (by omega)]
    · rintro ⟨-, h⟩; omega
    · rintro ⟨rfl, h⟩
      exact absurd (h3 rfl) (by omega)
  · rw [target_duty_eval]; decide

/-- Witness for C5's quantified part at `hot = 60`, `prev = 20`. -/
theorem C5_linear_region_witness :
    target_duty_from_temp_hot 60 20 = linear_duty_spec 60 :=
  C5_linear_region.1 60 20 (by decide) (by decide) (by decide)

/-- C10 (implicit): for every previous duty `prev ≥ 1` and temperature
`38 ≤ t ≤ 40` the target is exactly the floor 20 regardless of `prev`, and
for `t < 80` the target is always either 0 or in [20,100], never in
[1,19]. -/
theorem C10_duty_floor (t p : Int) :
    (1 ≤ p → 38 ≤ t → t ≤ 40 → target_duty_from_temp_hot t p = 20) ∧
      (t < 80 → target_duty_from_temp_hot t p = 0 ∨
        (20 ≤ target_duty_from_temp_hot t p ∧ target_duty_from_temp_hot t p ≤ 100)) := by
  rw [target_duty_eval]
  constructor
  · intro hp h1 h2
    rw [if_neg (by omega), if_neg ?_, if_neg ?_, if_pos (by omega)]
    · rintro ⟨-, h⟩; omega
    · rintro ⟨rfl, -⟩; omega
  · intro h80
    split_ifs with h1 h2 h3 h4
    · omega
    · left; rfl
    · left; rfl
    · right; omega
    · right
      unfold clamp
      split_ifs <;> omega

/-- Witness for C10 at `t = 39`, `p = 5`. -/
theorem C10_duty_floor_witness : target_duty_from_temp_hot 39 5 = 20 :=
  (C10_duty_floor 39 5).1 (by decide) (by decide) (by decide)

/-! ### Claims about the auto-loop write path -/

/-- C2 as stated is false on the code: in the cycle below (`tc = 50`,
`tg = 0`, `last = 0`) both duty writes fail, no duty reaches the fans, and
yet `last` changes from 0 to 2 — `cmd_auto` (src/main.c:232-236) discards
the return values of the duty writes and runs `last = newduty`
unconditionally. -/
theorem C2_counterexample :
    (cmd_auto_cycle 50 0 0 false false).written1 = none ∧
      (cmd_auto_cycle 50 0 0 false false).written2 = none ∧
      (cmd_auto_cycle 50 0 0 false false).last ≠ 0 := by
  simp only [cmd_auto_cycle, target_duty_eval]
  decide

/-- C2 (amended): in every auto-loop cycle, `last` is set to the computed
`newduty` regardless of whether the duty writes succeed (the write results
are discarded), so a failed write is not retried next cycle when the target
is unchanged; when a write does succeed, the duty written to the hardware
equals the updated `last`. -/
theorem C2_last_updated_regardless (tc tg last : Int) (w1 w2 : Bool) :
    (cmd_auto_cycle tc tg last w1 w2).last
        = auto_new_duty (if tg < tc then tc else tg) last ∧
      (∀ d, (cmd_auto_cycle tc tg last w1 w2).written1 = some d →
        d = (cmd_auto_cycle tc tg last w1 w2).last) ∧
      (∀ d, (cmd_auto_cycle tc tg last w1 w2).written2 = some d →
        d = (cmd_auto_cycle tc tg last w1 w2).last) := by
  simp only [cmd_auto_cycle, auto_new_duty]
  split_ifs <;> simp_all

/-- Witness for C2's amended theorem at `tc = 50`, `tg = 0`, `last = 0`,
both writes succeeding. -/
theorem C2_last_updated_regardless_witness :
    (2 : Int) = (cmd_auto_cycle 50 0 0 true true).last :=
  (C2_last_updated_regardless 50 0 0 true true).2.1 2
    (by simp only [cmd_auto_cycle, target_duty_eval]; decide)

/-! ### Claims about the duty conversions and RPM decoding -/

theorem clamp_eq_self {v lo hi : Int} (h1 : lo ≤ v) (h2 : v ≤ hi) : clamp v lo hi = v := by
  unfold clamp
  split_ifs <;> omega

/-- The round-trip identity on the integer forms of the conversions, checked
over the whole domain [0,100]. -/
theorem duty_roundtrip_fin :
    ∀ n : Fin 101,
      (51 * clamp (clamp ((40 * ((51 * ((n : ℕ) : ℤ) + 10) / 20) + 51) / 102) 0 100) 0 100 + 10) / 20
        = (51 * ((n : ℕ) : ℤ) + 10) / 20 := by
  decide

/-- C6: duty conversion round-trip stability: for every `pct` in [0,100],
`percent_to_raw (raw_to_percent (percent_to_raw pct)) = percent_to_raw pct`. -/
theorem C6_roundtrip (pct : Int) (h0 : 0 ≤ pct) (h1 : pct ≤ 100) :
    percent_to_raw (raw_to_percent (percent_to_raw pct)) = percent_to_raw pct := by
  simp only [percent_to_raw_eval, raw_to_percent_eval]
  rw [clamp_eq_self h0 h1]
  have h := duty_roundtrip_fin ⟨pct.toNat, by omega⟩
  simpa [Int.toNat_of_nonneg h0] using h

/-- Witness for C6 at `pct = 37`. -/
theorem C6_roundtrip_witness :
    percent_to_raw (raw_to_percent (percent_to_raw 37)) = percent_to_raw 37 :=
  C6_roundtrip 37 (by decide) (by decide)

/-- C7: RPM decoding with divide-by-zero guard: for bytes `hi`, `lo` in
[0,255], the result is `2156220 / ((hi<<8)|lo)` when the 16-bit raw value is
positive and 0 when it is 0; `rpm_from_raw 0 0 = 0`; and the result is never
negative. -/
theorem C7_rpm_decode (hi lo : Nat) (hhi : hi ≤ 255) (hlo : lo ≤ 255) :
    (0 < (hi <<< 8) ||| lo →
        rpm_from_raw hi lo = (2156220 : Int) / (((hi <<< 8) ||| lo : Nat) : Int)) ∧
      ((hi <<< 8) ||| lo = 0 → rpm_from_raw hi lo = 0) ∧
      0 ≤ rpm_from_raw hi lo ∧ rpm_from_raw 0 0 = 0 := by
  refine ⟨?_, ?_, ?_, by decide⟩
  · intro h
    simp [rpm_from_raw, h]
  · intro h
    simp [rpm_from_raw, h]
  · simp only [rpm_from_raw]
    split_ifs with h
    · exact Int.ediv_nonneg (by norm_num) (Int.natCast_nonneg _)
    · exact le_refl 0

/-- Witness for C7 at `hi = lo = 0`. -/
theorem C7_rpm_decode_witness : rpm_from_raw 0 0 = 0 :=
  (C7_rpm_decode 0 0 (by decide) (by decide)).2.2.2

/-! ### Claims about the EC transport -/

/-- `ec_io_wait_go` only ever produces -1 or 0. -/
theorem ec_io_wait_go_cases (flag value : Nat) (reads : Nat → Nat) :
    ∀ fuel i, ec_io_wait_go flag value reads fuel i = -1 ∨
      ec_io_wait_go flag value reads fuel i = 0 := by
  intro fuel
  induction fuel with
  | zero => intro i; left; rfl
  | succ f ih =>
    intro i
    simp only [ec_io_wait_go]
    split_ifs
    · exact ih (i + 1)
    · left; rfl
    · left; rfl
    · right; rfl

/-- `ec_io_wait` only ever produces -1 or 0. -/
theorem ec_io_wait_cases (port flag value : Nat) (reads : Nat → Nat) :
    ec_io_wait port flag value reads = -1 ∨ ec_io_wait port flag value reads = 0 := by
  unfold ec_io_wait
  exact ec_io_wait_go_cases flag value reads 101 0

/-- C8: `ec_io_do` reports success (0) exactly when all four handshake waits
succeed; and if the k-th wait is the first to time out, it reports failure
(-1) and the port writes performed are exactly the first k of the write
sequence — no write after the failed wait. -/
theorem C8_write_abort (cmd port value : Nat) (reads : Fin 4 → Nat → Nat) :
    ((ec_io_do cmd port value reads).1 = 0 ↔
        ∀ k : Fin 4, ec_io_wait EC_SC IBF 0 (reads k) = 0) ∧
      (∀ k : Fin 4, (∀ j : Fin 4, j < k → ec_io_wait EC_SC IBF 0 (reads j) = 0) →
        ec_io_wait EC_SC IBF 0 (reads k) ≠ 0 →
        (ec_io_do cmd port value reads).1 = -1 ∧
          (ec_io_do cmd port value reads).2 = (ec_io_write_seq cmd port value).take (k : ℕ)) := by
  by_cases h0 : ec_io_wait EC_SC IBF 0 (reads 0) = 0
  · by_cases h1 : ec_io_wait EC_SC IBF 0 (reads 1) = 0
    · by_cases h2 : ec_io_wait EC_SC IBF 0 (reads 2) = 0
      · have he : ec_io_do cmd port value reads
            = (ec_io_wait EC_SC IBF 0 (reads 3), ec_io_write_seq cmd port value) := by
          simp [ec_io_do, h0, h1, h2]
        rw [he]
        by_cases h3 : ec_io_wait EC_SC IBF 0 (reads 3) = 0
        · refine ⟨⟨fun _ k => ?_, fun _ => h3⟩, ?_⟩
          · fin_cases k <;> assumption
          · intro k hprev hk
            fin_cases k
            · exact absurd h0 hk
            · exact absurd h1 hk
            · exact absurd h2 hk
            · exact absurd h3 hk
        · have hm3 : ec_io_wait EC_SC IBF 0 (reads 3) = -1 :=
            (ec_io_wait_cases EC_SC IBF 0 (reads 3)).resolve_right h3
          refine ⟨⟨fun h => absurd h h3, fun hall => absurd (hall 3) h3⟩, ?_⟩
          intro k hprev hk
          fin_cases k
          · exact absurd h0 hk
          · exact absurd h1 hk
          · exact absurd h2 hk
          · exact ⟨hm3, rfl⟩
      · have he : ec_io_do cmd port value reads
            = (-1, (ec_io_write_seq cmd port value).take 2) := by
          simp [ec_io_do, h0, h1, h2]
        rw [he]
        refine ⟨⟨fun h => by norm_num at h, fun hall => absurd (hall 2) h2⟩, ?_⟩
        intro k hprev hk
        fin_cases k
        · exact absurd h0 hk
        · exact absurd h1 hk
        · exact ⟨rfl, rfl⟩
        · exact absurd (hprev 2 (by decide)) h2
    · have he : ec_io_do cmd port value reads
          = (-1, (ec_io_write_seq cmd port value).take 1) := by
        simp [ec_io_do, h0, h1]
      rw [he]
      refine ⟨⟨fun h => by norm_num at h, fun hall => absurd (hall 1) h1⟩, ?_⟩
      intro k hprev hk
      fin_cases k
      · exact absurd h0 hk
      · exact ⟨rfl, rfl⟩
      · exact absurd (hprev 1 (by decide)) h1
      · exact absurd (hprev 1 (by decide)) h1
  · have he : ec_io_do cmd port value reads = (-1, []) := by
      simp [ec_io_do, h0]
    rw [he]
    refine ⟨⟨fun h => by norm_num at h, fun hall => absurd (hall 0) h0⟩, ?_⟩
    intro k hprev hk
    fin_cases k
    · exact ⟨rfl, rfl⟩
    · exact absurd (hprev 0 (by decide)) h0
    · exact absurd (hprev 0 (by decide)) h0
    · exact absurd (hprev 0 (by decide)) h0

/-- A hardware oracle for the C8 witness: every poll of wait 2 reads byte 2
(IBF stuck high, so the wait times out); every other wait reads byte 0 (IBF
clear, immediate success). -/
def ec_reads_ex : Fin 4 → Nat → Nat := fun k _ => if k = 2 then 2 else 0

/-- Witness for C8: with wait 2 the first to time out, the write reports -1
and exactly the opcode and register-address writes happened. -/
theorem C8_write_abort_witness :
    (ec_io_do 0x99 0x01 229 ec_reads_ex).1 = -1 ∧
      (ec_io_do 0x99 0x01 229 ec_reads_ex).2 = (ec_io_write_seq 0x99 0x01 229).take 2 :=
  (C8_write_abort 0x99 0x01 229 ec_reads_ex).2 2 (by decide) (by decide)

/-! ### Claims about GPU temperature fallback -/

/-- The hwmon entry of C9: a monitor named "amdgpu" whose `temp1_input`
reads 55000 millidegrees. -/
def amdgpu_hwmon : HwMon :=
  ⟨"hwmon0".toList, some "amdgpu".toList, fun i => if i = 1 then some 55000 else none⟩

/-- C9: GPU temperature fallback ordering: the first source returning a
value > 0 determines the result and later sources are not consulted — if the
sysfs scan is positive its value is returned and the vendor subprocess is
never invoked; the subprocess is consulted only when the scan fails; and with
a matching "amdgpu" monitor reporting 55000 millidegrees the result is 55
without invoking the subprocess. -/
theorem C9_gpu_fallback :
    (∀ env : GpuEnv, 0 < gpu_temp_sysfs env.hwmon →
        gpu_temp env = (gpu_temp_sysfs env.hwmon, false)) ∧
      (∀ env : GpuEnv, gpu_temp_sysfs env.hwmon ≤ 0 → 0 < env.nvidia_smi →
        gpu_temp env = (env.nvidia_smi, true)) ∧
      (∀ env : GpuEnv, env.hwmon = some [amdgpu_hwmon] → gpu_temp env = (55, false)) := by
  refine ⟨?_, ?_, ?_⟩
  · intro env h
    simp [gpu_temp, h]
  · intro env h h2
    unfold gpu_temp
    rw [if_neg (by omega), if_pos h2]
  · intro env h
    have h55 : gpu_temp_sysfs env.hwmon = 55 := by rw [h]; decide
    unfold gpu_temp
    rw [h55, if_pos (by norm_num)]

/-- Witness for C9 with the "amdgpu" monitor present and an environment in
which the subprocess and EC sources would report nothing useful. -/
theorem C9_gpu_fallback_witness :
    gpu_temp ⟨some [amdgpu_hwmon], -1, 0⟩ = (55, false) :=
  C9_gpu_fallback.2.2 ⟨some [amdgpu_hwmon], -1, 0⟩ rfl
